import Mathlib

/-!
Shallow embedding of the sequential multi-agent orchestration engine of
`fin_agents.py` (class `FinanceMultiAgent`).

The Python state type `FinanceState` is a `TypedDict`, i.e. at runtime a
dictionary of string keys; a key can in principle be absent, `state[k]`
raises `KeyError` on an absent key, and `state.get(k, d)` returns the
default `d` on an absent key.  We therefore model each field as an
`Option String` (`none` = key absent, `some v` = key present with value
`v`).

The four specialist agents and the raw llm are external collaborators
(`create_react_agent` products and `ChatOpenAI`); a `Collab` record holds
one Lean function per collaborator.  A collaborator call either raises
(`Except.error`) or returns: an agent returns its response message list
(the `.content` of each message), the llm returns generated text.

Each node additionally produces the list of external calls it performed
(an `Event` trace), so that ordering, thread-id, and call-count
properties can be stated.  An agent call records the role dispatched to,
the `thread_id` passed in the `config` dictionary, and the instruction
string; the synthesis call to the raw llm carries only the prompt, as in
the source it is made without any `config`/memory context.
-/

/-- The `FinanceState` TypedDict from `fin_agents.py`. -/
structure FinanceState where
  query : Option String
  user_profiles : Option String
  market_data : Option String
  portfolio_analysis : Option String
  budget_analysis : Option String
  risk_assessment : Option String
  final_recommendation : Option String
deriving DecidableEq, Repr

/-- The four specialist stage roles (the four `create_react_agent` instances). -/
inductive Role where
  | portfolio
  | budget
  | market
  | risk
deriving DecidableEq, Repr

/-- One external call performed by the engine: either a stage-agent
invocation (with the role dispatched to, the `thread_id` string from the
`config` dict, and the instruction text), or the coordinator's raw llm
invocation (no `config`, hence no thread id). -/
inductive Event where
  | agentCall (role : Role) (threadId : String) (instruction : String)
  | llmCall (prompt : String)
deriving DecidableEq, Repr

/-- The external collaborators: the four react agents built in
`setup_agents`, and the bare `llm` used by `coordinator_node`.  An agent
call returns the contents of `response["messages"]`; any of them may
raise. -/
structure Collab where
  portfolio_agent : String → Except String (List String)
  budget_agent : String → Except String (List String)
  market_research_agent : String → Except String (List String)
  risk_assessment_agent : String → Except String (List String)
  llm : String → Except String String

/-- The Python exception raised by `response["messages"][-1]` on an empty list. -/
def indexError : String := "IndexError: list index out of range"

/-- The Python exception raised by `state["query"]` on an absent key. -/
def keyErrorQuery : String := "KeyError: query"

/-- `portfolio_analysis_node`: builds `"Analyze this request: " + query`,
invokes `self.portfolio_agent` with `thread_id "portfolio_agent"`, takes the
last response message, writes it to `portfolio_analysis`. -/
def portfolio_analysis_node (c : Collab) (state : FinanceState) :
    List Event × Except String FinanceState :=
  match state.query with
  | none => ([], Except.error keyErrorQuery)
  | some q =>
    let instruction := "Analyze this request: " ++ q
    let evs := [Event.agentCall Role.portfolio "portfolio_agent" instruction]
    match c.portfolio_agent instruction with
    | Except.error e => (evs, Except.error e)
    | Except.ok msgs =>
      match msgs.getLast? with
      | none => (evs, Except.error indexError)
      | some last => (evs, Except.ok { state with portfolio_analysis := some last })

/-- `budget_analysis_node`: same shape, `thread_id "budget_agent"`, writes
`budget_analysis`. -/
def budget_analysis_node (c : Collab) (state : FinanceState) :
    List Event × Except String FinanceState :=
  match state.query with
  | none => ([], Except.error keyErrorQuery)
  | some q =>
    let instruction := "Analyze this request: " ++ q
    let evs := [Event.agentCall Role.budget "budget_agent" instruction]
    match c.budget_agent instruction with
    | Except.error e => (evs, Except.error e)
    | Except.ok msgs =>
      match msgs.getLast? with
      | none => (evs, Except.error indexError)
      | some last => (evs, Except.ok { state with budget_analysis := some last })

/-- `market_research_node`: instruction `"Research this request: " + query`,
`thread_id "market_agent"`, writes `market_data`. -/
def market_research_node (c : Collab) (state : FinanceState) :
    List Event × Except String FinanceState :=
  match state.query with
  | none => ([], Except.error keyErrorQuery)
  | some q =>
    let instruction := "Research this request: " ++ q
    let evs := [Event.agentCall Role.market "market_agent" instruction]
    match c.market_research_agent instruction with
    | Except.error e => (evs, Except.error e)
    | Except.ok msgs =>
      match msgs.getLast? with
      | none => (evs, Except.error indexError)
      | some last => (evs, Except.ok { state with market_data := some last })

/-- `risk_assessment_node`: instruction `"Assess risks for: " + query`,
`thread_id "risk_agent"`, writes `risk_assessment`. -/
def risk_assessment_node (c : Collab) (state : FinanceState) :
    List Event × Except String FinanceState :=
  match state.query with
  | none => ([], Except.error keyErrorQuery)
  | some q =>
    let instruction := "Assess risks for: " ++ q
    let evs := [Event.agentCall Role.risk "risk_agent" instruction]
    match c.risk_assessment_agent instruction with
    | Except.error e => (evs, Except.error e)
    | Except.ok msgs =>
      match msgs.getLast? with
      | none => (evs, Except.error indexError)
      | some last => (evs, Except.ok { state with risk_assessment := some last })

/-- The coordinator's composite prompt: the f-string of `coordinator_node`,
as a function of the already-looked-up query and the four slot lookups. -/
def coordinatorPrompt (q pa ba md ra : String) : String :=
  "\n        As a senior financial advisor, synthesize the following analyses into a comprehensive recommendation:\n        \n        Original Query: "
    ++ q
    ++ "\n        \n        Portfolio Analysis: "
    ++ pa
    ++ "\n        Budget Analysis: "
    ++ ba
    ++ "\n        Market Research: "
    ++ md
    ++ "\n        Risk Assessment: "
    ++ ra
    ++ "\n        \n        Provide a clear, actionable financial recommendation with:\n        1. Summary of key findings\n        2. Specific action steps\n        3. Risk considerations\n        4. Timeline for implementation\n        "

/-- `coordinator_node`: builds the composite prompt (`state["query"]` read
directly, each stage slot via `state.get(slot, "N/A")`), invokes the bare
`llm` once with no `config`, writes the response text to
`final_recommendation`. -/
def coordinator_node (c : Collab) (state : FinanceState) :
    List Event × Except String FinanceState :=
  match state.query with
  | none => ([], Except.error keyErrorQuery)
  | some q =>
    let prompt := coordinatorPrompt q (state.portfolio_analysis.getD "N/A")
      (state.budget_analysis.getD "N/A") (state.market_data.getD "N/A")
      (state.risk_assessment.getD "N/A")
    match c.llm prompt with
    | Except.error e => ([Event.llmCall prompt], Except.error e)
    | Except.ok text =>
      ([Event.llmCall prompt], Except.ok { state with final_recommendation := some text })

/-- Sequential composition of the compiled `StateGraph`: run the next node
on the accumulated state unless a previous node raised; concatenate call
traces.  This is the semantics of the linear edge chain in
`create_workflow`. -/
def andThen (r : List Event × Except String FinanceState)
    (f : FinanceState → List Event × Except String FinanceState) :
    List Event × Except String FinanceState :=
  match r with
  | (evs, Except.error e) => (evs, Except.error e)
  | (evs, Except.ok s) =>
    let r2 := f s
    (evs ++ r2.1, r2.2)

/-- The four specialist stages of the workflow, in the edge order of
`create_workflow`: portfolio → budget → market → risk. -/
def runStages (c : Collab) (s : FinanceState) :
    List Event × Except String FinanceState :=
  andThen (andThen (andThen (portfolio_analysis_node c s)
    (budget_analysis_node c)) (market_research_node c)) (risk_assessment_node c)

/-- `create_workflow().invoke`: the full linear chain
portfolio → budget → market → risk → coordinator → END. -/
def workflow_invoke (c : Collab) (s : FinanceState) :
    List Event × Except String FinanceState :=
  andThen (runStages c s) (coordinator_node c)

/-- The `initial_state` dict literal of `get_financial_advice`: every key
present, `query` set to the user query, every other field the empty string. -/
def initialState (q : String) : FinanceState :=
  { query := some q
    user_profiles := some ""
    market_data := some ""
    portfolio_analysis := some ""
    budget_analysis := some ""
    risk_assessment := some ""
    final_recommendation := some "" }

/-- `get_financial_advice`: build the workflow, invoke it on the initial
state, return `final_state["final_recommendation"]`.  Also returns the
trace of external calls the run performed. -/
def get_financial_advice (c : Collab) (query : String) :
    List Event × Except String String :=
  match workflow_invoke c (initialState query) with
  | (evs, Except.error e) => (evs, Except.error e)
  | (evs, Except.ok s) =>
    match s.final_recommendation with
    | none => (evs, Except.error "KeyError: final_recommendation")
    | some t => (evs, Except.ok t)

/-- Stub collaborators as in the spec's end-to-end scenario: the four
agents answer with single messages "P", "B", "M", "R", the llm answers
"OK". -/
def stubCollab : Collab :=
  { portfolio_agent := fun _ => Except.ok ["P"]
    budget_agent := fun _ => Except.ok ["B"]
    market_research_agent := fun _ => Except.ok ["M"]
    risk_assessment_agent := fun _ => Except.ok ["R"]
    llm := fun _ => Except.ok "OK" }

example : (get_financial_advice stubCollab "q").2 = Except.ok "OK" := rfl

/-! ### Helper lemmas -/

theorem portfolio_ok {c : Collab} {s : FinanceState} {evs : List Event}
    {s' : FinanceState}
    (h : portfolio_analysis_node c s = (evs, Except.ok s')) :
    ∃ q msgs v, s.query = some q ∧
      c.portfolio_agent ("Analyze this request: " ++ q) = Except.ok msgs ∧
      msgs.getLast? = some v ∧
      evs = [Event.agentCall Role.portfolio "portfolio_agent"
        ("Analyze this request: " ++ q)] ∧
      s' = { s with portfolio_analysis := some v } := by
  simp only [portfolio_analysis_node] at h
  split at h
  · simp at h
  · rename_i q hq
    split at h
    · simp at h
    · rename_i msgs ha
      split at h
      · simp at h
      · rename_i v hl
        injection h with h1 h2
        injection h2 with h2
        exact ⟨q, msgs, v, hq, ha, hl, h1.symm, h2.symm⟩

theorem budget_ok {c : Collab} {s : FinanceState} {evs : List Event}
    {s' : FinanceState}
    (h : budget_analysis_node c s = (evs, Except.ok s')) :
    ∃ q msgs v, s.query = some q ∧
      c.budget_agent ("Analyze this request: " ++ q) = Except.ok msgs ∧
      msgs.getLast? = some v ∧
      evs = [Event.agentCall Role.budget "budget_agent"
        ("Analyze this request: " ++ q)] ∧
      s' = { s with budget_analysis := some v } := by
  simp only [budget_analysis_node] at h
  split at h
  · simp at h
  · rename_i q hq
    split at h
    · simp at h
    · rename_i msgs ha
      split at h
      · simp at h
      · rename_i v hl
        injection h with h1 h2
        injection h2 with h2
        exact ⟨q, msgs, v, hq, ha, hl, h1.symm, h2.symm⟩

theorem market_ok {c : Collab} {s : FinanceState} {evs : List Event}
    {s' : FinanceState}
    (h : market_research_node c s = (evs, Except.ok s')) :
    ∃ q msgs v, s.query = some q ∧
      c.market_research_agent ("Research this request: " ++ q) = Except.ok msgs ∧
      msgs.getLast? = some v ∧
      evs = [Event.agentCall Role.market "market_agent"
        ("Research this request: " ++ q)] ∧
      s' = { s with market_data := some v } := by
  simp only [market_research_node] at h
  split at h
  · simp at h
  · rename_i q hq
    split at h
    · simp at h
    · rename_i msgs ha
      split at h
      · simp at h
      · rename_i v hl
        injection h with h1 h2
        injection h2 with h2
        exact ⟨q, msgs, v, hq, ha, hl, h1.symm, h2.symm⟩

theorem risk_ok {c : Collab} {s : FinanceState} {evs : List Event}
    {s' : FinanceState}
    (h : risk_assessment_node c s = (evs, Except.ok s')) :
    ∃ q msgs v, s.query = some q ∧
      c.risk_assessment_agent ("Assess risks for: " ++ q) = Except.ok msgs ∧
      msgs.getLast? = some v ∧
      evs = [Event.agentCall Role.risk "risk_agent"
        ("Assess risks for: " ++ q)] ∧
      s' = { s with risk_assessment := some v } := by
  simp only [risk_assessment_node] at h
  split at h
  · simp at h
  · rename_i q hq
    split at h
    · simp at h
    · rename_i msgs ha
      split at h
      · simp at h
      · rename_i v hl
        injection h with h1 h2
        injection h2 with h2
        exact ⟨q, msgs, v, hq, ha, hl, h1.symm, h2.symm⟩

theorem coordinator_ok {c : Collab} {s : FinanceState} {evs : List Event}
    {s' : FinanceState}
    (h : coordinator_node c s = (evs, Except.ok s')) :
    ∃ q t, s.query = some q ∧
      c.llm (coordinatorPrompt q (s.portfolio_analysis.getD "N/A")
        (s.budget_analysis.getD "N/A") (s.market_data.getD "N/A")
        (s.risk_assessment.getD "N/A")) = Except.ok t ∧
      evs = [Event.llmCall (coordinatorPrompt q (s.portfolio_analysis.getD "N/A")
        (s.budget_analysis.getD "N/A") (s.market_data.getD "N/A")
        (s.risk_assessment.getD "N/A"))] ∧
      s' = { s with final_recommendation := some t } := by
  simp only [coordinator_node] at h
  split at h
  · simp at h
  · rename_i q hq
    split at h
    · simp at h
    · rename_i t hl
      injection h with h1 h2
      injection h2 with h2
      exact ⟨q, t, hq, hl, h1.symm, h2.symm⟩

theorem andThen_ok {r : List Event × Except String FinanceState}
    {f : FinanceState → List Event × Except String FinanceState}
    {evs : List Event} {s' : FinanceState}
    (h : andThen r f = (evs, Except.ok s')) :
    ∃ evs1 s1 evs2, r = (evs1, Except.ok s1) ∧ f s1 = (evs2, Except.ok s') ∧
      evs = evs1 ++ evs2 := by
  obtain ⟨evs0, r0⟩ := r
  cases r0 with
  | error e => simp [andThen] at h
  | ok s1 =>
    rcases hf : f s1 with ⟨evs2, r2⟩
    simp only [andThen, hf] at h
    cases r2 with
    | error e => simp at h
    | ok s2 =>
      injection h with h1 h2
      injection h2 with h2
      exact ⟨evs0, s1, evs2, rfl, by rw [hf, h2], h1.symm⟩

theorem andThen_error {r : List Event × Except String FinanceState}
    {f : FinanceState → List Event × Except String FinanceState}
    {evs : List Event} {e : String}
    (h : r = (evs, Except.error e)) : andThen r f = (evs, Except.error e) := by
  rw [h]; rfl

theorem mem_andThen {r : List Event × Except String FinanceState}
    {f : FinanceState → List Event × Except String FinanceState}
    {ev : Event} (h : ev ∈ (andThen r f).1) :
    ev ∈ r.1 ∨ ∃ s, ev ∈ (f s).1 := by
  obtain ⟨evs0, r0⟩ := r
  cases r0 with
  | error e => exact Or.inl h
  | ok s1 =>
    simp only [andThen, List.mem_append] at h
    rcases h with h | h
    · exact Or.inl h
    · exact Or.inr ⟨s1, h⟩

theorem portfolio_mem {c : Collab} {s : FinanceState} {ev : Event}
    (h : ev ∈ (portfolio_analysis_node c s).1) :
    ∃ i, ev = Event.agentCall Role.portfolio "portfolio_agent" i := by
  simp only [portfolio_analysis_node] at h
  split at h
  · simp at h
  · rename_i q hq
    split at h
    · simp at h
      exact ⟨_, h⟩
    · split at h <;> simp at h <;> exact ⟨_, h⟩

theorem budget_mem {c : Collab} {s : FinanceState} {ev : Event}
    (h : ev ∈ (budget_analysis_node c s).1) :
    ∃ i, ev = Event.agentCall Role.budget "budget_agent" i := by
  simp only [budget_analysis_node] at h
  split at h
  · simp at h
  · rename_i q hq
    split at h
    · simp at h
      exact ⟨_, h⟩
    · split at h <;> simp at h <;> exact ⟨_, h⟩

theorem market_mem {c : Collab} {s : FinanceState} {ev : Event}
    (h : ev ∈ (market_research_node c s).1) :
    ∃ i, ev = Event.agentCall Role.market "market_agent" i := by
  simp only [market_research_node] at h
  split at h
  · simp at h
  · rename_i q hq
    split at h
    · simp at h
      exact ⟨_, h⟩
    · split at h <;> simp at h <;> exact ⟨_, h⟩

theorem risk_mem {c : Collab} {s : FinanceState} {ev : Event}
    (h : ev ∈ (risk_assessment_node c s).1) :
    ∃ i, ev = Event.agentCall Role.risk "risk_agent" i := by
  simp only [risk_assessment_node] at h
  split at h
  · simp at h
  · rename_i q hq
    split at h
    · simp at h
      exact ⟨_, h⟩
    · split at h <;> simp at h <;> exact ⟨_, h⟩

theorem coordinator_mem {c : Collab} {s : FinanceState} {ev : Event}
    (h : ev ∈ (coordinator_node c s).1) :
    ∃ p, ev = Event.llmCall p := by
  simp only [coordinator_node] at h
  split at h
  · simp at h
  · rename_i q hq
    split at h <;> simp at h <;> exact ⟨_, h⟩

/-- The fixed `thread_id` each stage role passes in its `config` dict. -/
def threadIdOf : Role → String
  | Role.portfolio => "portfolio_agent"
  | Role.budget => "budget_agent"
  | Role.market => "market_agent"
  | Role.risk => "risk_agent"

theorem runStages_no_llm {c : Collab} {s : FinanceState} {p : String}
    (h : Event.llmCall p ∈ (runStages c s).1) : False := by
  unfold runStages at h
  rcases mem_andThen h with h | ⟨s4, h⟩
  · rcases mem_andThen h with h | ⟨s3, h⟩
    · rcases mem_andThen h with h | ⟨s2, h⟩
      · obtain ⟨i, hi⟩ := portfolio_mem h
        exact Event.noConfusion hi
      · obtain ⟨i, hi⟩ := budget_mem h
        exact Event.noConfusion hi
    · obtain ⟨i, hi⟩ := market_mem h
      exact Event.noConfusion hi
  · obtain ⟨i, hi⟩ := risk_mem h
    exact Event.noConfusion hi

theorem workflow_agentCall_tid {c : Collab} {s : FinanceState} {ev : Event}
    (h : ev ∈ (workflow_invoke c s).1) :
    ∀ r tid i, ev = Event.agentCall r tid i → tid = threadIdOf r := by
  intro r tid i heq
  subst heq
  unfold workflow_invoke runStages at h
  rcases mem_andThen h with h | ⟨s5, h⟩
  · rcases mem_andThen h with h | ⟨s4, h⟩
    · rcases mem_andThen h with h | ⟨s3, h⟩
      · rcases mem_andThen h with h | ⟨s2, h⟩
        · obtain ⟨i2, hi⟩ := portfolio_mem h
          injection hi with hr ht hi2
          subst hr
          exact ht
        · obtain ⟨i2, hi⟩ := budget_mem h
          injection hi with hr ht hi2
          subst hr
          exact ht
      · obtain ⟨i2, hi⟩ := market_mem h
        injection hi with hr ht hi2
        subst hr
        exact ht
    · obtain ⟨i2, hi⟩ := risk_mem h
      injection hi with hr ht hi2
      subst hr
      exact ht
  · obtain ⟨p, hp⟩ := coordinator_mem h
    exact Event.noConfusion hp

theorem gfa_ok {c : Collab} {q : String} {evs : List Event} {t : String}
    (h : get_financial_advice c q = (evs, Except.ok t)) :
    ∃ s', workflow_invoke c (initialState q) = (evs, Except.ok s') ∧
      s'.final_recommendation = some t := by
  unfold get_financial_advice at h
  split at h
  · simp at h
  · rename_i evs1 s1 hw
    split at h
    · simp at h
    · rename_i t1 hf
      injection h with h1 h2
      injection h2 with h2
      exact ⟨s1, by rw [hw, h1], by rw [hf, h2]⟩

theorem gfa_evs (c : Collab) (q : String) :
    (get_financial_advice c q).1 = (workflow_invoke c (initialState q)).1 := by
  unfold get_financial_advice
  rcases hw : workflow_invoke c (initialState q) with ⟨evs, r⟩
  cases r with
  | error e => rfl
  | ok s =>
    cases hf : s.final_recommendation <;> simp [hf]

set_option maxHeartbeats 1000000 in
theorem workflow_ok_init {c : Collab} {q : String} {evs : List Event}
    {s' : FinanceState}
    (h : workflow_invoke c (initialState q) = (evs, Except.ok s')) :
    ∃ msgs1 msgs2 msgs3 msgs4 v1 v2 v3 v4 t,
      c.portfolio_agent ("Analyze this request: " ++ q) = Except.ok msgs1 ∧
      msgs1.getLast? = some v1 ∧
      c.budget_agent ("Analyze this request: " ++ q) = Except.ok msgs2 ∧
      msgs2.getLast? = some v2 ∧
      c.market_research_agent ("Research this request: " ++ q) = Except.ok msgs3 ∧
      msgs3.getLast? = some v3 ∧
      c.risk_assessment_agent ("Assess risks for: " ++ q) = Except.ok msgs4 ∧
      msgs4.getLast? = some v4 ∧
      c.llm (coordinatorPrompt q v1 v2 v3 v4) = Except.ok t ∧
      evs = [Event.agentCall Role.portfolio "portfolio_agent"
          ("Analyze this request: " ++ q),
        Event.agentCall Role.budget "budget_agent"
          ("Analyze this request: " ++ q),
        Event.agentCall Role.market "market_agent"
          ("Research this request: " ++ q),
        Event.agentCall Role.risk "risk_agent"
          ("Assess risks for: " ++ q),
        Event.llmCall (coordinatorPrompt q v1 v2 v3 v4)] ∧
      s' = { query := some q, user_profiles := some "",
             market_data := some v3, portfolio_analysis := some v1,
             budget_analysis := some v2, risk_assessment := some v4,
             final_recommendation := some t } := by
  unfold workflow_invoke runStages at h
  obtain ⟨evsA, s4, evs5, hA, h5, hevs⟩ := andThen_ok h
  obtain ⟨evsB, s3, evs4, hB, h4, hevsA⟩ := andThen_ok hA
  obtain ⟨evsC, s2, evs3, hC, h3, hevsB⟩ := andThen_ok hB
  obtain ⟨evs1, s1, evs2, h1, h2, hevsC⟩ := andThen_ok hC
  obtain ⟨q1, msgs1, v1, hq1, ha1, hl1, he1, hs1⟩ := portfolio_ok h1
  have hq1e : q = q1 := by
    simp [initialState] at hq1
    exact hq1
  subst hq1e
  subst hs1
  obtain ⟨q2, msgs2, v2, hq2, ha2, hl2, he2, hs2⟩ := budget_ok h2
  have hq2e : q = q2 := by
    simp [initialState] at hq2
    exact hq2
  subst hq2e
  subst hs2
  obtain ⟨q3, msgs3, v3, hq3, ha3, hl3, he3, hs3⟩ := market_ok h3
  have hq3e : q = q3 := by
    simp [initialState] at hq3
    exact hq3
  subst hq3e
  subst hs3
  obtain ⟨q4, msgs4, v4, hq4, ha4, hl4, he4, hs4⟩ := risk_ok h4
  have hq4e : q = q4 := by
    simp [initialState] at hq4
    exact hq4
  subst hq4e
  subst hs4
  obtain ⟨q5, t, hq5, hll, he5, hs5⟩ := coordinator_ok h5
  have hq5e : q = q5 := by
    simp [initialState] at hq5
    exact hq5
  subst hq5e
  subst hs5
  refine ⟨msgs1, msgs2, msgs3, msgs4, v1, v2, v3, v4, t,
    ha1, hl1, ha2, hl2, ha3, hl3, ha4, hl4, ?_, ?_, ?_⟩
  · simpa [initialState] using hll
  · rw [hevs, hevsA, hevsB, hevsC, he1, he2, he3, he4, he5]
    simp [initialState]
  · simp [initialState]

/-- A pipeline step is oblivious to the `user_profiles` field: running it on
a state with that field replaced yields the same call trace and the same
result, with the replacement carried through unchanged. -/
def UPIndep (f : FinanceState → List Event × Except String FinanceState) : Prop :=
  ∀ s x, f { s with user_profiles := x } =
    ((f s).1, Except.map (fun t => { t with user_profiles := x }) (f s).2)

theorem portfolio_UP (c : Collab) : UPIndep (portfolio_analysis_node c) := by
  intro s x
  simp only [portfolio_analysis_node]
  cases hq : s.query with
  | none => simp [hq, Except.map]
  | some q =>
    cases ha : c.portfolio_agent ("Analyze this request: " ++ q) with
    | error e => simp [hq, ha, Except.map]
    | ok msgs =>
      cases hl : msgs.getLast? with
      | none => simp [hq, ha, hl, Except.map]
      | some v => simp [hq, ha, hl, Except.map]

theorem budget_UP (c : Collab) : UPIndep (budget_analysis_node c) := by
  intro s x
  simp only [budget_analysis_node]
  cases hq : s.query with
  | none => simp [hq, Except.map]
  | some q =>
    cases ha : c.budget_agent ("Analyze this request: " ++ q) with
    | error e => simp [hq, ha, Except.map]
    | ok msgs =>
      cases hl : msgs.getLast? with
      | none => simp [hq, ha, hl, Except.map]
      | some v => simp [hq, ha, hl, Except.map]

theorem market_UP (c : Collab) : UPIndep (market_research_node c) := by
  intro s x
  simp only [market_research_node]
  cases hq : s.query with
  | none => simp [hq, Except.map]
  | some q =>
    cases ha : c.market_research_agent ("Research this request: " ++ q) with
    | error e => simp [hq, ha, Except.map]
    | ok msgs =>
      cases hl : msgs.getLast? with
      | none => simp [hq, ha, hl, Except.map]
      | some v => simp [hq, ha, hl, Except.map]

theorem risk_UP (c : Collab) : UPIndep (risk_assessment_node c) := by
  intro s x
  simp only [risk_assessment_node]
  cases hq : s.query with
  | none => simp [hq, Except.map]
  | some q =>
    cases ha : c.risk_assessment_agent ("Assess risks for: " ++ q) with
    | error e => simp [hq, ha, Except.map]
    | ok msgs =>
      cases hl : msgs.getLast? with
      | none => simp [hq, ha, hl, Except.map]
      | some v => simp [hq, ha, hl, Except.map]

theorem coordinator_UP (c : Collab) : UPIndep (coordinator_node c) := by
  intro s x
  simp only [coordinator_node]
  cases hq : s.query with
  | none => simp [hq, Except.map]
  | some q =>
    cases hl : c.llm (coordinatorPrompt q (s.portfolio_analysis.getD "N/A")
        (s.budget_analysis.getD "N/A") (s.market_data.getD "N/A")
        (s.risk_assessment.getD "N/A")) with
    | error e => simp [hq, hl, Except.map]
    | ok t => simp [hq, hl, Except.map]

theorem andThen_UP {f g : FinanceState → List Event × Except String FinanceState}
    (hf : UPIndep f) (hg : UPIndep g) :
    UPIndep (fun s => andThen (f s) g) := by
  intro s x
  simp only []
  rw [hf s x]
  rcases hfs : f s with ⟨evs1, r1⟩
  cases r1 with
  | error e => simp [andThen, Except.map]
  | ok s1 =>
    simp only [andThen, Except.map, hg s1 x]

theorem workflow_UP (c : Collab) : UPIndep (workflow_invoke c) := by
  have h12 : UPIndep (fun s => andThen (portfolio_analysis_node c s)
      (budget_analysis_node c)) := andThen_UP (portfolio_UP c) (budget_UP c)
  have h123 : UPIndep (fun s => andThen (andThen (portfolio_analysis_node c s)
      (budget_analysis_node c)) (market_research_node c)) :=
    andThen_UP h12 (market_UP c)
  have h1234 : UPIndep (fun s => andThen (andThen (andThen
      (portfolio_analysis_node c s) (budget_analysis_node c))
      (market_research_node c)) (risk_assessment_node c)) :=
    andThen_UP h123 (risk_UP c)
  have hAll : UPIndep (fun s => andThen (runStages c s) (coordinator_node c)) :=
    andThen_UP h1234 (coordinator_UP c)
  intro s x
  exact hAll s x

/-! ### Claim theorems -/

/-- C1: for every query, a successful `run` (`get_financial_advice`) performs
its external calls in exactly the fixed total order portfolio, budget,
market, risk, synthesize — never another order, never a branch, never an
omitted stage. -/
theorem run_invokes_stages_in_order : ∀ (c : Collab) (q : String)
    (evs : List Event) (t : String),
    get_financial_advice c q = (evs, Except.ok t) →
    ∃ p, evs =
      [Event.agentCall Role.portfolio "portfolio_agent" ("Analyze this request: " ++ q),
       Event.agentCall Role.budget "budget_agent" ("Analyze this request: " ++ q),
       Event.agentCall Role.market "market_agent" ("Research this request: " ++ q),
       Event.agentCall Role.risk "risk_agent" ("Assess risks for: " ++ q),
       Event.llmCall p] := by
  intro c q evs t h
  obtain ⟨s', hw, hf⟩ := gfa_ok h
  obtain ⟨m1, m2, m3, m4, v1, v2, v3, v4, t0, h1, h2, h3, h4, h5, h6, h7, h8,
    hll, hevs, hs⟩ := workflow_ok_init hw
  exact ⟨coordinatorPrompt q v1 v2 v3 v4, hevs⟩

/-- Witness for C1: the stubbed run makes exactly the five calls in order. -/
theorem run_invokes_stages_in_order_witness :
    ∃ p, (get_financial_advice stubCollab "q").1 =
      [Event.agentCall Role.portfolio "portfolio_agent" ("Analyze this request: " ++ "q"),
       Event.agentCall Role.budget "budget_agent" ("Analyze this request: " ++ "q"),
       Event.agentCall Role.market "market_agent" ("Research this request: " ++ "q"),
       Event.agentCall Role.risk "risk_agent" ("Assess risks for: " ++ "q"),
       Event.llmCall p] :=
  run_invokes_stages_in_order stubCollab "q"
    (get_financial_advice stubCollab "q").1 "OK" rfl

/-- C2: on success each node's output state is its input state with exactly
its own slot assigned (a single write to its own slot, every other slot of
the Shared State Record untouched); this holds for all four stage nodes and
for the coordinator. -/
theorem stage_writes_exactly_own_slot : ∀ (c : Collab) (s : FinanceState)
    (evs : List Event) (s' : FinanceState),
    (portfolio_analysis_node c s = (evs, Except.ok s') →
      ∃ v, s' = { s with portfolio_analysis := some v }) ∧
    (budget_analysis_node c s = (evs, Except.ok s') →
      ∃ v, s' = { s with budget_analysis := some v }) ∧
    (market_research_node c s = (evs, Except.ok s') →
      ∃ v, s' = { s with market_data := some v }) ∧
    (risk_assessment_node c s = (evs, Except.ok s') →
      ∃ v, s' = { s with risk_assessment := some v }) ∧
    (coordinator_node c s = (evs, Except.ok s') →
      ∃ v, s' = { s with final_recommendation := some v }) := by
  intro c s evs s'
  refine ⟨fun h => ?_, fun h => ?_, fun h => ?_, fun h => ?_, fun h => ?_⟩
  · obtain ⟨q, m, v, _, _, _, _, hs⟩ := portfolio_ok h
    exact ⟨v, hs⟩
  · obtain ⟨q, m, v, _, _, _, _, hs⟩ := budget_ok h
    exact ⟨v, hs⟩
  · obtain ⟨q, m, v, _, _, _, _, hs⟩ := market_ok h
    exact ⟨v, hs⟩
  · obtain ⟨q, m, v, _, _, _, _, hs⟩ := risk_ok h
    exact ⟨v, hs⟩
  · obtain ⟨q, t, _, _, _, hs⟩ := coordinator_ok h
    exact ⟨t, hs⟩

/-- Witness for C2 at the stubbed portfolio node. -/
theorem stage_writes_exactly_own_slot_witness :
    ∃ v, ({ initialState "q" with portfolio_analysis := some "P" } : FinanceState) =
      { initialState "q" with portfolio_analysis := some v } :=
  (stage_writes_exactly_own_slot stubCollab (initialState "q")
    [Event.agentCall Role.portfolio "portfolio_agent" ("Analyze this request: " ++ "q")]
    { initialState "q" with portfolio_analysis := some "P" }).1 rfl

/-- C3: for every Shared State Record whose slots are populated, the
Synthesizer builds exactly one composite prompt embedding the original
query and the four stage slot values verbatim, in the fixed order
portfolio, budget, market, risk (see `coordinatorPrompt`, a literal
concatenation in that order). -/
theorem synthesizer_prompt_verbatim : ∀ (c : Collab) (s : FinanceState)
    (q pa ba md ra : String),
    s.query = some q → s.portfolio_analysis = some pa →
    s.budget_analysis = some ba → s.market_data = some md →
    s.risk_assessment = some ra →
    (coordinator_node c s).1 = [Event.llmCall (coordinatorPrompt q pa ba md ra)] := by
  intro c s q pa ba md ra hq hpa hba hmd hra
  simp only [coordinator_node, hq, hpa, hba, hmd, hra, Option.getD_some]
  cases hll : c.llm (coordinatorPrompt q pa ba md ra) with
  | error e => simp [hll]
  | ok t => simp [hll]

/-- The state of the spec's end-to-end scenario, with the four slots holding
the placeholder strings "P", "B", "M", "R". -/
def populatedState : FinanceState :=
  { query := some "q"
    user_profiles := some ""
    market_data := some "M"
    portfolio_analysis := some "P"
    budget_analysis := some "B"
    risk_assessment := some "R"
    final_recommendation := some "" }

/-- Witness for C3 at the placeholder state. -/
theorem synthesizer_prompt_verbatim_witness :
    (coordinator_node stubCollab populatedState).1 =
      [Event.llmCall (coordinatorPrompt "q" "P" "B" "M" "R")] :=
  synthesizer_prompt_verbatim stubCollab populatedState "q" "P" "B" "M" "R"
    rfl rfl rfl rfl rfl

/-- C9: each stage's instruction string is the query wrapped with that
stage's fixed constant text in front: "Analyze this request: " for
portfolio and budget, "Research this request: " for market, and
"Assess risks for: " for risk. -/
theorem stage_instruction_wrapping : ∀ (c : Collab) (s : FinanceState) (q : String),
    s.query = some q →
    (portfolio_analysis_node c s).1 =
      [Event.agentCall Role.portfolio "portfolio_agent" ("Analyze this request: " ++ q)] ∧
    (budget_analysis_node c s).1 =
      [Event.agentCall Role.budget "budget_agent" ("Analyze this request: " ++ q)] ∧
    (market_research_node c s).1 =
      [Event.agentCall Role.market "market_agent" ("Research this request: " ++ q)] ∧
    (risk_assessment_node c s).1 =
      [Event.agentCall Role.risk "risk_agent" ("Assess risks for: " ++ q)] := by
  intro c s q hq
  refine ⟨?_, ?_, ?_, ?_⟩
  · simp only [portfolio_analysis_node, hq]
    cases ha : c.portfolio_agent ("Analyze this request: " ++ q) with
    | error e => simp [ha]
    | ok msgs =>
      cases hl : msgs.getLast? with
      | none => simp [ha, hl]
      | some v => simp [ha, hl]
  · simp only [budget_analysis_node, hq]
    cases ha : c.budget_agent ("Analyze this request: " ++ q) with
    | error e => simp [ha]
    | ok msgs =>
      cases hl : msgs.getLast? with
      | none => simp [ha, hl]
      | some v => simp [ha, hl]
  · simp only [market_research_node, hq]
    cases ha : c.market_research_agent ("Research this request: " ++ q) with
    | error e => simp [ha]
    | ok msgs =>
      cases hl : msgs.getLast? with
      | none => simp [ha, hl]
      | some v => simp [ha, hl]
  · simp only [risk_assessment_node, hq]
    cases ha : c.risk_assessment_agent ("Assess risks for: " ++ q) with
    | error e => simp [ha]
    | ok msgs =>
      cases hl : msgs.getLast? with
      | none => simp [ha, hl]
      | some v => simp [ha, hl]

/-- Witness for C9 at the stubbed collaborators and query "q". -/
theorem stage_instruction_wrapping_witness :
    (portfolio_analysis_node stubCollab (initialState "q")).1 =
      [Event.agentCall Role.portfolio "portfolio_agent" ("Analyze this request: " ++ "q")] ∧
    (budget_analysis_node stubCollab (initialState "q")).1 =
      [Event.agentCall Role.budget "budget_agent" ("Analyze this request: " ++ "q")] ∧
    (market_research_node stubCollab (initialState "q")).1 =
      [Event.agentCall Role.market "market_agent" ("Research this request: " ++ "q")] ∧
    (risk_assessment_node stubCollab (initialState "q")).1 =
      [Event.agentCall Role.risk "risk_agent" ("Assess risks for: " ++ "q")] :=
  stage_instruction_wrapping stubCollab (initialState "q") "q" rfl

/-- Collaborators whose portfolio agent raises. -/
def failCollab : Collab :=
  { portfolio_agent := fun _ => Except.error "boom"
    budget_agent := fun _ => Except.ok ["B"]
    market_research_agent := fun _ => Except.ok ["M"]
    risk_assessment_agent := fun _ => Except.ok ["R"]
    llm := fun _ => Except.ok "OK" }

/-- Collaborators whose portfolio agent returns an empty message sequence. -/
def emptyMsgCollab : Collab :=
  { portfolio_agent := fun _ => Except.ok []
    budget_agent := fun _ => Except.ok ["B"]
    market_research_agent := fun _ => Except.ok ["M"]
    risk_assessment_agent := fun _ => Except.ok ["R"]
    llm := fun _ => Except.ok "OK" }

/-- C4: if the four-stage pipeline fails (a Stage Function call raised, or
returned malformed data), `get_financial_advice` surfaces exactly that
failure — unchanged, with no partial result — and the Synthesizer is never
invoked: the run's call trace contains no llm call at all. -/
theorem stage_failure_aborts_run : ∀ (c : Collab) (q : String)
    (evs : List Event) (e : String),
    runStages c (initialState q) = (evs, Except.error e) →
    get_financial_advice c q = (evs, Except.error e) ∧
    ∀ p, Event.llmCall p ∉ evs := by
  intro c q evs e h
  have hw : workflow_invoke c (initialState q) = (evs, Except.error e) :=
    andThen_error h
  constructor
  · unfold get_financial_advice
    rw [hw]
  · intro p hp
    exact runStages_no_llm (c := c) (s := initialState q) (by rw [h]; exact hp)

/-- Witness for C4: a raising portfolio agent aborts the run after one call. -/
theorem stage_failure_aborts_run_witness :
    get_financial_advice failCollab "q" =
      ([Event.agentCall Role.portfolio "portfolio_agent" ("Analyze this request: " ++ "q")],
        Except.error "boom") ∧
    ∀ p, Event.llmCall p ∉
      [Event.agentCall Role.portfolio "portfolio_agent" ("Analyze this request: " ++ "q")] :=
  stage_failure_aborts_run failCollab "q"
    [Event.agentCall Role.portfolio "portfolio_agent" ("Analyze this request: " ++ "q")]
    "boom" rfl

/-- Recognizer for synthesis (text-generation) calls in a trace. -/
def isLlmCall : Event → Bool
  | Event.llmCall _ => true
  | Event.agentCall _ _ _ => false

/-- C5: a successful run performs exactly one llm text-generation call; it
is the terminal call of the run; it carries no stage memory context (an
`Event.llmCall` has no thread id, mirroring the configless `llm.invoke`);
and `get_financial_advice` returns the generated text verbatim. -/
theorem synthesis_single_stateless_call : ∀ (c : Collab) (q : String)
    (evs : List Event) (t : String),
    get_financial_advice c q = (evs, Except.ok t) →
    ∃ p, evs.filter isLlmCall = [Event.llmCall p] ∧
      evs.getLast? = some (Event.llmCall p) ∧
      c.llm p = Except.ok t := by
  intro c q evs t h
  obtain ⟨s', hw, hf⟩ := gfa_ok h
  obtain ⟨m1, m2, m3, m4, v1, v2, v3, v4, t0, h1, h2, h3, h4, h5, h6, h7, h8,
    hll, hevs, hs⟩ := workflow_ok_init hw
  subst hs
  simp only [] at hf
  have ht : t0 = t := by
    simpa using hf
  subst ht
  subst hevs
  refine ⟨coordinatorPrompt q v1 v2 v3 v4, ?_, ?_, hll⟩
  · simp [isLlmCall]
  · rfl

/-- Witness for C5 at the stubbed collaborators. -/
theorem synthesis_single_stateless_call_witness :
    ∃ p, (get_financial_advice stubCollab "q").1.filter isLlmCall = [Event.llmCall p] ∧
      (get_financial_advice stubCollab "q").1.getLast? = some (Event.llmCall p) ∧
      stubCollab.llm p = Except.ok "OK" :=
  synthesis_single_stateless_call stubCollab "q"
    (get_financial_advice stubCollab "q").1 "OK" rfl

/-- C7: the engine takes the last message of a Stage Function response as
the stage's textual result (all four stage nodes); an empty message
sequence has no last message, so extraction raises the IndexError, which
aborts the whole run with that failure. -/
theorem last_message_extraction : ∀ (c : Collab) (s : FinanceState) (q : String),
    s.query = some q →
    (∀ msgs v, c.portfolio_agent ("Analyze this request: " ++ q) = Except.ok msgs →
      msgs.getLast? = some v →
      portfolio_analysis_node c s =
        ([Event.agentCall Role.portfolio "portfolio_agent" ("Analyze this request: " ++ q)],
          Except.ok { s with portfolio_analysis := some v })) ∧
    (∀ msgs v, c.budget_agent ("Analyze this request: " ++ q) = Except.ok msgs →
      msgs.getLast? = some v →
      budget_analysis_node c s =
        ([Event.agentCall Role.budget "budget_agent" ("Analyze this request: " ++ q)],
          Except.ok { s with budget_analysis := some v })) ∧
    (∀ msgs v, c.market_research_agent ("Research this request: " ++ q) = Except.ok msgs →
      msgs.getLast? = some v →
      market_research_node c s =
        ([Event.agentCall Role.market "market_agent" ("Research this request: " ++ q)],
          Except.ok { s with market_data := some v })) ∧
    (∀ msgs v, c.risk_assessment_agent ("Assess risks for: " ++ q) = Except.ok msgs →
      msgs.getLast? = some v →
      risk_assessment_node c s =
        ([Event.agentCall Role.risk "risk_agent" ("Assess risks for: " ++ q)],
          Except.ok { s with risk_assessment := some v })) ∧
    (c.portfolio_agent ("Analyze this request: " ++ q) = Except.ok [] →
      portfolio_analysis_node c s =
        ([Event.agentCall Role.portfolio "portfolio_agent" ("Analyze this request: " ++ q)],
          Except.error indexError)) ∧
    (c.portfolio_agent ("Analyze this request: " ++ q) = Except.ok [] →
      get_financial_advice c q =
        ([Event.agentCall Role.portfolio "portfolio_agent" ("Analyze this request: " ++ q)],
          Except.error indexError)) := by
  intro c s q hq
  refine ⟨?_, ?_, ?_, ?_, ?_, ?_⟩
  · intro msgs v ha hl
    simp [portfolio_analysis_node, hq, ha, hl]
  · intro msgs v ha hl
    simp [budget_analysis_node, hq, ha, hl]
  · intro msgs v ha hl
    simp [market_research_node, hq, ha, hl]
  · intro msgs v ha hl
    simp [risk_assessment_node, hq, ha, hl]
  · intro ha
    simp [portfolio_analysis_node, hq, ha]
  · intro ha
    simp [get_financial_advice, workflow_invoke, runStages, andThen,
      portfolio_analysis_node, initialState, ha]

/-- Witness for C7: extraction of a singleton message, and the abort on an
empty message sequence. -/
theorem last_message_extraction_witness :
    portfolio_analysis_node stubCollab (initialState "q") =
      ([Event.agentCall Role.portfolio "portfolio_agent" ("Analyze this request: " ++ "q")],
        Except.ok { initialState "q" with portfolio_analysis := some "P" }) ∧
    get_financial_advice emptyMsgCollab "q" =
      ([Event.agentCall Role.portfolio "portfolio_agent" ("Analyze this request: " ++ "q")],
        Except.error indexError) :=
  ⟨(last_message_extraction stubCollab (initialState "q") "q" rfl).1 ["P"] "P" rfl rfl,
    (last_message_extraction emptyMsgCollab (initialState "q") "q" rfl).2.2.2.2.2 rfl⟩

/-- C8: every agent call addressed to a stage role — in any run with any
collaborators, hence the same across different runs — carries that role's
single fixed thread id, and distinct roles have distinct thread ids, so two
roles never share a memory context handle. -/
theorem per_role_memory_handle :
    (∀ (c : Collab) (q : String) (r : Role) (tid i : String),
      Event.agentCall r tid i ∈ (get_financial_advice c q).1 → tid = threadIdOf r) ∧
    (∀ r r2 : Role, r ≠ r2 → threadIdOf r ≠ threadIdOf r2) := by
  constructor
  · intro c q r tid i hmem
    rw [gfa_evs] at hmem
    exact workflow_agentCall_tid hmem r tid i rfl
  · intro r r2 hne
    cases r <;> cases r2 <;> revert hne <;> decide

/-- Witness for C8 at the stubbed run's first call. -/
theorem per_role_memory_handle_witness :
    "portfolio_agent" = threadIdOf Role.portfolio :=
  per_role_memory_handle.1 stubCollab "q" Role.portfolio "portfolio_agent"
    ("Analyze this request: " ++ "q") (List.mem_cons_self _ _)

/-- Shape of the coordinator's trace for any state with a query: one llm
call, whose prompt renders each stage slot via `Option.getD _ "N/A"`. -/
theorem coordinator_evs_shape {c : Collab} {s : FinanceState} {q : String}
    (hq : s.query = some q) :
    (coordinator_node c s).1 = [Event.llmCall (coordinatorPrompt q
      (s.portfolio_analysis.getD "N/A") (s.budget_analysis.getD "N/A")
      (s.market_data.getD "N/A") (s.risk_assessment.getD "N/A"))] := by
  simp only [coordinator_node, hq]
  cases hll : c.llm (coordinatorPrompt q (s.portfolio_analysis.getD "N/A")
      (s.budget_analysis.getD "N/A") (s.market_data.getD "N/A")
      (s.risk_assessment.getD "N/A")) with
  | error e => simp [hll]
  | ok t => simp [hll]

set_option maxRecDepth 10000 in
set_option maxHeartbeats 1000000 in
/-- Counterexample to C6: in the record `get_financial_advice` actually
builds, a stage that never ran leaves its slot holding the present empty
string (the initialization value), and the Synthesizer then renders that
empty string — its prompt contains no "N/A" sentinel anywhere. -/
theorem synthesizer_na_cex :
    (initialState "q").portfolio_analysis = some "" ∧
    (coordinator_node stubCollab (initialState "q")).1 =
      [Event.llmCall (coordinatorPrompt "q" "" "" "" "")] ∧
    ¬ ("N/A".data <:+: (coordinatorPrompt "q" "" "" "" "").data) := by
  refine ⟨rfl, rfl, ?_⟩
  decide

/-- C6 amended: the Synthesizer renders the "N/A" sentinel for a stage slot
exactly when that slot's key is absent from the record; a slot that is
present — even holding the empty string left by a stage that never ran —
is rendered verbatim instead, and in neither case does the Synthesizer
fail. -/
theorem synthesizer_na_only_when_absent : ∀ (c : Collab) (s : FinanceState)
    (q : String), s.query = some q →
    (s.portfolio_analysis = none →
      (coordinator_node c s).1 = [Event.llmCall (coordinatorPrompt q "N/A"
        (s.budget_analysis.getD "N/A") (s.market_data.getD "N/A")
        (s.risk_assessment.getD "N/A"))]) ∧
    (s.budget_analysis = none →
      (coordinator_node c s).1 = [Event.llmCall (coordinatorPrompt q
        (s.portfolio_analysis.getD "N/A") "N/A" (s.market_data.getD "N/A")
        (s.risk_assessment.getD "N/A"))]) ∧
    (s.market_data = none →
      (coordinator_node c s).1 = [Event.llmCall (coordinatorPrompt q
        (s.portfolio_analysis.getD "N/A") (s.budget_analysis.getD "N/A") "N/A"
        (s.risk_assessment.getD "N/A"))]) ∧
    (s.risk_assessment = none →
      (coordinator_node c s).1 = [Event.llmCall (coordinatorPrompt q
        (s.portfolio_analysis.getD "N/A") (s.budget_analysis.getD "N/A")
        (s.market_data.getD "N/A") "N/A")]) ∧
    (∀ v, s.portfolio_analysis = some v →
      (coordinator_node c s).1 = [Event.llmCall (coordinatorPrompt q v
        (s.budget_analysis.getD "N/A") (s.market_data.getD "N/A")
        (s.risk_assessment.getD "N/A"))]) := by
  intro c s q hq
  refine ⟨fun hx => ?_, fun hx => ?_, fun hx => ?_, fun hx => ?_, fun v hv => ?_⟩
  · simp [coordinator_evs_shape hq, hx]
  · simp [coordinator_evs_shape hq, hx]
  · simp [coordinator_evs_shape hq, hx]
  · simp [coordinator_evs_shape hq, hx]
  · simp [coordinator_evs_shape hq, hv]

/-- A record with the query present and every stage slot key absent. -/
def absentSlotsState : FinanceState :=
  { query := some "q"
    user_profiles := none
    market_data := none
    portfolio_analysis := none
    budget_analysis := none
    risk_assessment := none
    final_recommendation := none }

/-- Witness for the amended C6: all four slots absent render as "N/A". -/
theorem synthesizer_na_only_when_absent_witness :
    (coordinator_node stubCollab absentSlotsState).1 =
      [Event.llmCall (coordinatorPrompt "q" "N/A" "N/A" "N/A" "N/A")] :=
  (synthesizer_na_only_when_absent stubCollab absentSlotsState "q" rfl).1 rfl

/-- C10: the extra `user_profiles` field of the Shared State Record is
initialized to the empty string and is never read or written by any stage
or by the coordinator: a successful workflow run leaves it equal to
`some ""`, leaves `query` equal to the original input, and replacing the
field with any other value changes neither the call trace nor any other
part of the result. -/
theorem user_profiles_inert : ∀ (c : Collab) (q : String)
    (evs : List Event) (s' : FinanceState),
    workflow_invoke c (initialState q) = (evs, Except.ok s') →
    (initialState q).user_profiles = some "" ∧
    s'.user_profiles = some "" ∧
    s'.query = some q ∧
    ∀ x, workflow_invoke c { initialState q with user_profiles := x } =
      (evs, Except.ok { s' with user_profiles := x }) := by
  intro c q evs s' h
  obtain ⟨m1, m2, m3, m4, v1, v2, v3, v4, t0, h1, h2, h3, h4, h5, h6, h7, h8,
    hll, hevs, hs⟩ := workflow_ok_init h
  refine ⟨rfl, ?_, ?_, ?_⟩
  · rw [hs]
  · rw [hs]
  · intro x
    rw [workflow_UP c (initialState q) x, h]
    simp [Except.map]

/-- The final state of the stubbed run. -/
def stubFinalState : FinanceState :=
  { query := some "q"
    user_profiles := some ""
    market_data := some "M"
    portfolio_analysis := some "P"
    budget_analysis := some "B"
    risk_assessment := some "R"
    final_recommendation := some "OK" }

/-- The call trace of the stubbed run. -/
def stubEvents : List Event :=
  [Event.agentCall Role.portfolio "portfolio_agent" ("Analyze this request: " ++ "q"),
   Event.agentCall Role.budget "budget_agent" ("Analyze this request: " ++ "q"),
   Event.agentCall Role.market "market_agent" ("Research this request: " ++ "q"),
   Event.agentCall Role.risk "risk_agent" ("Assess risks for: " ++ "q"),
   Event.llmCall (coordinatorPrompt "q" "P" "B" "M" "R")]

/-- Witness for C10 at the stubbed run. -/
theorem user_profiles_inert_witness :
    (initialState "q").user_profiles = some "" ∧
    stubFinalState.user_profiles = some "" ∧
    stubFinalState.query = some "q" ∧
    ∀ x, workflow_invoke stubCollab { initialState "q" with user_profiles := x } =
      (stubEvents, Except.ok { stubFinalState with user_profiles := x }) :=
  user_profiles_inert stubCollab "q" stubEvents stubFinalState rfl
